import Mathlib

/-!
Verification development for the SRIP platform (src/app.py).

The Python source is shallowly embedded below: pure string helpers become
Lean functions on `String`/`List Char`, the stateful response cache becomes
explicit state passing (an association list threaded through the calls), and
the remote Groq collaborator becomes an oracle `Nat → GroqOutcome` indexed by
the invocation count.  All definitions are executable.
-/

/-! ## Python string primitives -/

/-- Set of characters Python `str.isspace`/`str.strip` treats as whitespace
(the Unicode whitespace code points). -/
def pyIsSpace (c : Char) : Bool :=
  let n := c.toNat
  decide ((9 ≤ n ∧ n ≤ 13) ∨ n = 32 ∨ (28 ≤ n ∧ n ≤ 31) ∨ n = 133 ∨ n = 160 ∨
    n = 5760 ∨ (8192 ≤ n ∧ n ≤ 8202) ∨ n = 8232 ∨ n = 8233 ∨ n = 8239 ∨
    n = 8287 ∨ n = 12288)

/-- Python `str.strip()` with no arguments: drop whitespace from both ends. -/
def pyStrip (s : String) : String :=
  ⟨((s.data.dropWhile pyIsSpace).reverse.dropWhile pyIsSpace).reverse⟩

/-- Python `str.lower()` (the inputs handled by this program are ASCII, where
`Char.toLower` agrees with Python). -/
def pyLower (s : String) : String := ⟨s.data.map Char.toLower⟩

/-- Python `str.upper()` (ASCII, as above). -/
def pyUpper (s : String) : String := ⟨s.data.map Char.toUpper⟩

/-- Python slicing `s[:n]` over code points. -/
def strTake (s : String) (n : Nat) : String := ⟨s.data.take n⟩

/-- Check that `nd` occurs as a prefix of `hay`. -/
def prefixCheck : List Char → List Char → Bool
  | [], _ => true
  | _ :: _, [] => false
  | a :: as, b :: bs => a == b && prefixCheck as bs

/-- Python substring containment `nd in hay`. -/
def occursIn (nd : List Char) : List Char → Bool
  | [] => prefixCheck nd []
  | c :: rest => prefixCheck nd (c :: rest) || occursIn nd rest

/-- Python `sub in s` on strings. -/
def strContains (hay nd : String) : Bool := occursIn nd.data hay.data

/-- Concatenate the images of `f` (Python-style flat map, avoiding version
differences in the standard library). -/
def listFlat {α β : Type} (f : α → List β) : List α → List β
  | [] => []
  | a :: as => f a ++ listFlat f as

/-- Split a character list at every occurrence of `sep`; the empty list yields
one empty field, as Python's `str.split(sep)` does. -/
def splitChar (sep : Char) : List Char → List (List Char)
  | [] => [[]]
  | c :: rest =>
    if c = sep then [] :: splitChar sep rest
    else
      match splitChar sep rest with
      | [] => [[c]]
      | l :: ls => (c :: l) :: ls

/-- Python `s.split(sep)` for a one-character separator. -/
def pySplit (sep : Char) (s : String) : List String :=
  (splitChar sep s.data).map (fun l => ⟨l⟩)

/-! ## SHA-256 (for `_generate_cache_id`, src/app.py lines 97-99)

`hashlib.sha256(content.encode()).hexdigest()[:20]` is embedded exactly:
UTF-8 encoding, the FIPS 180-4 compression function over 32-bit words
(`Nat` with explicit `% 2^32`), lowercase hex digest, first 20 characters. -/

def u32 (x : Nat) : Nat := x % 4294967296

def rotr32 (n x : Nat) : Nat := u32 ((x >>> n) ||| (x <<< (32 - n)))

def ch32 (x y z : Nat) : Nat := (x &&& y) ^^^ ((x ^^^ 4294967295) &&& z)

def maj32 (x y z : Nat) : Nat := (x &&& y) ^^^ (x &&& z) ^^^ (y &&& z)

def bsig0 (x : Nat) : Nat := rotr32 2 x ^^^ rotr32 13 x ^^^ rotr32 22 x

def bsig1 (x : Nat) : Nat := rotr32 6 x ^^^ rotr32 11 x ^^^ rotr32 25 x

def ssig0 (x : Nat) : Nat := rotr32 7 x ^^^ rotr32 18 x ^^^ (x >>> 3)

def ssig1 (x : Nat) : Nat := rotr32 17 x ^^^ rotr32 19 x ^^^ (x >>> 10)

def sha256K : List Nat :=
  [1116352408, 1899447441, 3049323471, 3921009573, 961987163, 1508970993,
   2453635748, 2870763221, 3624381080, 310598401, 607225278, 1426881987,
   1925078388, 2162078206, 2614888103, 3248222580, 3835390401, 4022224774,
   264347078, 604807628, 770255983, 1249150122, 1555081692, 1996064986,
   2554220882, 2821834349, 2952996808, 3210313671, 3336571891, 3584528711,
   113926993, 338241895, 666307205, 773529912, 1294757372, 1396182291,
   1695183700, 1986661051, 2177026350, 2456956037, 2730485921, 2820302411,
   3259730800, 3345764771, 3516065817, 3600352804, 4094571909, 275423344,
   430227734, 506948616, 659060556, 883997877, 958139571, 1322822218,
   1537002063, 1747873779, 1955562222, 2024104815, 2227730452, 2361852424,
   2428436474, 2756734187, 3204031479, 3329325298]

def sha256H0 : List Nat :=
  [1779033703, 3144134277, 1013904242, 2773480762,
   1359893119, 2600822924, 528734635, 1541459225]

/-- One step of the message-schedule extension. -/
def wstep (ws : List Nat) : List Nat :=
  ws ++ [u32 (ssig1 (ws.getD (ws.length - 2) 0) + ws.getD (ws.length - 7) 0 +
              ssig0 (ws.getD (ws.length - 15) 0) + ws.getD (ws.length - 16) 0)]

def extendSched : Nat → List Nat → List Nat
  | 0, ws => ws
  | n + 1, ws => extendSched n (wstep ws)

/-- One SHA-256 round on the 8-word working state. -/
def sha256Round (st : List Nat) (kw : Nat × Nat) : List Nat :=
  match st with
  | [a, b, c, d, e, f, g, h] =>
    let t1 := u32 (h + bsig1 e + ch32 e f g + kw.1 + kw.2)
    let t2 := u32 (bsig0 a + maj32 a b c)
    [u32 (t1 + t2), a, b, c, u32 (d + t1), e, f, g]
  | other => other

def sha256Compress (h : List Nat) (block : List Nat) : List Nat :=
  let w := extendSched 48 block
  let st := (sha256K.zip w).foldl sha256Round h
  (h.zip st).map (fun p => u32 (p.1 + p.2))

def be64 (n : Nat) : List Nat :=
  [(n >>> 56) % 256, (n >>> 48) % 256, (n >>> 40) % 256, (n >>> 32) % 256,
   (n >>> 24) % 256, (n >>> 16) % 256, (n >>> 8) % 256, n % 256]

def sha256Pad (msg : List Nat) : List Nat :=
  msg ++ [128] ++ List.replicate ((119 - msg.length % 64) % 64) 0 ++
    be64 (8 * msg.length)

def bytesToWords : List Nat → List Nat
  | a :: b :: c :: d :: rest =>
    (a * 16777216 + b * 65536 + c * 256 + d) :: bytesToWords rest
  | _ => []

def wordChunksAux : Nat → List Nat → List (List Nat)
  | 0, _ => []
  | _, [] => []
  | fuel + 1, ws => ws.take 16 :: wordChunksAux fuel (ws.drop 16)

def wordChunks (ws : List Nat) : List (List Nat) := wordChunksAux ws.length ws

def hexDigit (n : Nat) : Char := Char.ofNat (if n < 10 then 48 + n else 87 + n)

def hexOfWord (w : Nat) : List Char :=
  [hexDigit ((w >>> 28) &&& 15), hexDigit ((w >>> 24) &&& 15),
   hexDigit ((w >>> 20) &&& 15), hexDigit ((w >>> 16) &&& 15),
   hexDigit ((w >>> 12) &&& 15), hexDigit ((w >>> 8) &&& 15),
   hexDigit ((w >>> 4) &&& 15), hexDigit (w &&& 15)]

/-- Lowercase hex SHA-256 digest of a byte list (`hashlib.sha256(..).hexdigest()`). -/
def sha256Hex (msg : List Nat) : String :=
  ⟨listFlat hexOfWord
    ((wordChunks (bytesToWords (sha256Pad msg))).foldl sha256Compress sha256H0)⟩

/-- Python `str.encode()`: UTF-8 bytes of a string. -/
def utf8Char (c : Char) : List Nat :=
  let n := c.toNat
  if n < 128 then [n]
  else if n < 2048 then [192 + n / 64, 128 + n % 64]
  else if n < 65536 then [224 + n / 4096, 128 + (n / 64) % 64, 128 + n % 64]
  else [240 + n / 262144, 128 + (n / 4096) % 64, 128 + (n / 64) % 64, 128 + n % 64]

def strBytes (s : String) : List Nat := listFlat utf8Char s.data

/-- `_generate_cache_id` (src/app.py lines 97-99):
`hashlib.sha256(content.encode()).hexdigest()[:20]`. -/
def generate_cache_id (content : String) : String :=
  strTake (sha256Hex (strBytes content)) 20

example : sha256Hex (strBytes "abc") =
    "ba7816bf8f01cfea414140de5dae2223b00361a396177a9cb410ff61f20015ad" := by decide

/-! ## JSON serialization (`json.dumps(messages, sort_keys=True)`)

The executor serializes its message list with `json.dumps(..., sort_keys=True)`
(src/app.py line 107).  The messages built by this program are dicts with
exactly the keys `"role"` and `"content"`, so the sorted serialization is a
list of objects whose keys appear in the order `content`, `role`, with the
default separators `", "` and `": "` and `ensure_ascii=True` escaping. -/

def hex4 (n : Nat) : List Char :=
  [hexDigit ((n >>> 12) &&& 15), hexDigit ((n >>> 8) &&& 15),
   hexDigit ((n >>> 4) &&& 15), hexDigit (n &&& 15)]

/-- Escaping of a single character as in Python `json.dumps` with the default
`ensure_ascii=True`. -/
def jsonEscapeChar (c : Char) : List Char :=
  let n := c.toNat
  if n = 34 then ['\\', '"']
  else if n = 92 then ['\\', '\\']
  else if n = 10 then ['\\', 'n']
  else if n = 13 then ['\\', 'r']
  else if n = 9 then ['\\', 't']
  else if n = 8 then ['\\', 'b']
  else if n = 12 then ['\\', 'f']
  else if 32 ≤ n ∧ n ≤ 126 then [c]
  else if n < 65536 then '\\' :: 'u' :: hex4 n
  else
    let m := n - 65536
    '\\' :: 'u' :: (hex4 (55296 + m / 1024) ++ ['\\', 'u'] ++ hex4 (56320 + m % 1024))

def jsonQuote (s : String) : String :=
  ⟨'"' :: (listFlat jsonEscapeChar s.data ++ ['"'])⟩

/-- A chat message: a Python dict with keys `"role"` and `"content"`. -/
structure Message where
  role : String
  content : String
deriving DecidableEq, Repr

def jsonDumpMessage (m : Message) : String :=
  "\x7b\"content\": " ++ jsonQuote m.content ++ ", \"role\": " ++ jsonQuote m.role ++ "\x7d"

def jsonDumpsMessages (ms : List Message) : String :=
  "[" ++ String.intercalate ", " (ms.map jsonDumpMessage) ++ "]"

/-! ## Text Sanitizer: `_clean_input` (src/app.py lines 89-95) -/

/-- The literal characters of the allow-list in the regex
`[^\w\s\-.,!?()\'\"@#$%&*+/:;<=>[\]^`  (backtick, braces, bar, tilde, euro,
pound, yen) of `_clean_input`. -/
def allowedPunct : String := "-.,!?()\'\"@#$%&*+/:;<=>[]^\x60\x7b|\x7d~€£¥"

/-- Python regex `\w` (word character).  Python's `\w` is Unicode-aware
(it also accepts non-ASCII letters and digits such as accented letters); this
embedding uses the ASCII classification, which agrees with Python on every
ASCII character — and hence on the whitespace, punctuation and currency
symbols of the class, all of which are handled by the other two predicates. -/
def pyWordChar (c : Char) : Bool := c.isAlphanum || c = '_'

/-- Characters kept by `_clean_input`'s `re.sub`: word characters, whitespace
and the allow-listed punctuation / currency symbols. -/
def allowedChar (c : Char) : Bool :=
  pyWordChar c || pyIsSpace c || allowedPunct.data.contains c

/-- `_clean_input(text, max_chars)`: strip disallowed characters, trim,
truncate to `max_chars`.  Python's `not text` check makes `""` map to `""`. -/
def clean_input (text : String) (max_chars : Nat) : String :=
  if text = "" then ""
  else strTake (pyStrip ⟨text.data.filter allowedChar⟩) max_chars

/-- Wrapper modelling the dynamic `isinstance(text, str)` guard of
`_clean_input`: `none` stands for any non-string Python value, which yields
the empty string. -/
def clean_input_val : Option String → Nat → String
  | none, _ => ""
  | some s, n => clean_input s n

/-! ## Completion Executor: `_execute_groq_call` (src/app.py lines 101-175) -/

/-- One invocation of the remote collaborator, as classified by the source's
`try`/`except` arms: a response (list of choices, each with an optional
content), a `groq.RateLimitError`, a `groq.APIError` carrying its message, or
any other exception. -/
inductive GroqOutcome where
  | success (choices : List (Option String))
  | rateLimit
  | apiError (msg : String)
  | failure
deriving Repr

/-- Outcome of the attempt loop for one model: an accepted content, exhaustion
of the 3 attempts, or the `break` taken on a decommissioned/not-found model. -/
inductive TryOutcome where
  | accepted (content : String)
  | exhausted
  | unavailable
deriving Repr, DecidableEq

/-- The accuracy-emphasis clause appended at src/app.py line 115. -/
def enhancementClause : String :=
  " Focus on factual, evidence-based analysis. Clearly distinguish between verified information and reasonable estimates."

/-- Effect of `enhanced_messages = messages.copy()` followed by
`enhanced_messages[0]["content"] += ...` (lines 113-115).  `list.copy()` is a
shallow copy, so the first message dict is shared with the caller's list: the
caller-visible list after the mutation is exactly this value as well. -/
def enhanceMessages : List Message → List Message
  | [] => []
  | m :: ms => { m with content := m.content ++ enhancementClause } :: ms

def primary_model : String := "llama-3.1-70b-versatile"

def fallback_models : List String := ["mixtral-8x7b-32768", "llama-3.1-8b-instant"]

/-- `all_models = [self.primary_model] + self.fallback_models` (line 118). -/
def all_models : List String := primary_model :: fallback_models

/-- The in-memory response cache `self.response_cache`, as an association list
(most recent insertion first, which matches dict overwrite semantics). -/
abbrev Cache := List (String × String)

def cacheLookup (c : Cache) (k : String) : Option String :=
  (c.find? (fun p => p.1 == k)).map (fun p => p.2)

/-- `"No input provided for {context} analysis."` (line 104). -/
def noInputText (context : String) : String :=
  "No input provided for " ++ context ++ " analysis."

/-- The terminal structured fallback (lines 163-175), an f-string followed by
`.strip()`; transcribed with its exact trailing spaces. -/
def fallbackText (context : String) : String :=
  pyStrip ("\n" ++ pyUpper context ++ " ANALYSIS - LIMITED AVAILABILITY\n\nDue to high system demand, detailed " ++ context ++ " analysis is temporarily constrained. \nKey insights based on general market knowledge:\n\n- Market conditions show typical enterprise software adoption patterns\n- Competitive dynamics reflect standard technology sector characteristics  \n- Risk factors align with common enterprise technology concerns\n- Strategic considerations follow established business frameworks\n\nFor complete analysis, please retry in a few minutes when system capacity improves.\n        ")

/-- The inner `for attempt in range(3)` loop (lines 121-160) for a single
model.  `oracle` is the remote collaborator indexed by invocation count, `idx`
the next invocation index; the `Nat` argument counts remaining attempts.
Acceptance requires a non-empty first choice with truthy content whose
stripped text exceeds 150 characters; a rate-limit, generic API error or
unclassified exception consumes the attempt (the `time.sleep` calls have no
observable effect in the embedding); a decommissioned/not-found API error
triggers the `break` to the next model. -/
def runAttempts (oracle : Nat → GroqOutcome) (idx : Nat) : Nat → TryOutcome × Nat
  | 0 => (TryOutcome.exhausted, idx)
  | n + 1 =>
    match oracle idx with
    | GroqOutcome.success choices =>
      match choices with
      | some c :: _ =>
        if c ≠ "" then
          if 150 < (pyStrip c).length then (TryOutcome.accepted (pyStrip c), idx + 1)
          else runAttempts oracle (idx + 1) n
        else runAttempts oracle (idx + 1) n
      | _ => runAttempts oracle (idx + 1) n
    | GroqOutcome.rateLimit => runAttempts oracle (idx + 1) n
    | GroqOutcome.apiError msg =>
      if strContains (pyLower msg) "decommissioned" || strContains (pyLower msg) "not found"
      then (TryOutcome.unavailable, idx + 1)
      else runAttempts oracle (idx + 1) n
    | GroqOutcome.failure => runAttempts oracle (idx + 1) n

/-- The outer `for model_index, model in enumerate(all_models)` loop
(line 120): three attempts per model, advancing to the next model on
exhaustion or unavailability. -/
def modelLoop (oracle : Nat → GroqOutcome) (idx : Nat) : List String → TryOutcome × Nat
  | [] => (TryOutcome.exhausted, idx)
  | _ :: rest =>
    match runAttempts oracle idx 3 with
    | (TryOutcome.accepted c, i) => (TryOutcome.accepted c, i)
    | (_, i) => modelLoop oracle i rest

/-- Observable result of one `_execute_groq_call`: the returned string, the
response cache afterwards, the caller-visible message list afterwards (the
shallow-copy mutation of line 115 is visible to the caller), and the number of
remote collaborator invocations made during the call. -/
structure ExecResult where
  result : String
  cache : Cache
  messagesAfter : List Message
  remoteCalls : Nat
deriving DecidableEq, Repr

/-- `_execute_groq_call(messages, max_tokens, context)` (lines 101-175).
The cache id is computed at line 107 over `json.dumps(messages,
sort_keys=True)` — before the enhancement of line 115.  On acceptance the
content is stored under that id (line 138); the terminal fallback path leaves
the cache untouched. -/
def execute_groq_call (oracle : Nat → GroqOutcome) (cache : Cache)
    (messages : List Message) (max_tokens : Nat) (context : String) : ExecResult :=
  if messages = [] then ⟨noInputText context, cache, messages, 0⟩
  else
    let cache_id := generate_cache_id (jsonDumpsMessages messages)
    match cacheLookup cache cache_id with
    | some v => ⟨v, cache, messages, 0⟩
    | none =>
      let _ := max_tokens
      let enhanced := enhanceMessages messages
      match modelLoop oracle 0 all_models with
      | (TryOutcome.accepted content, n) => ⟨content, (cache_id, content) :: cache, enhanced, n⟩
      | (_, n) => ⟨fallbackText context, cache, enhanced, n⟩

/-! ## Recommendation Parser: `_parse_recommendations` (src/app.py lines 393-431) -/

/-- Semantics of `re.match(r'^(\d+)[\.\)]\s*(.+)', line)`, returning group 2:
one or more digits (`Char.isDigit`; Python's `\d` additionally accepts
non-ASCII decimal digits), a dot or closing parenthesis, optional whitespace,
then at least one character.  If everything after the whitespace run is empty but the
run is non-empty, the greedy `\s*` backtracks one character so `(.+)` matches
the final whitespace character.  (`.` excludes newlines, but the lines matched
here come from `split('\n')` and contain none.) -/
def numberedMatch (line : String) : Option String :=
  let cs := line.data
  let ds := cs.takeWhile Char.isDigit
  if ds.isEmpty then none
  else
    match cs.drop ds.length with
    | c :: rest =>
      if c = '.' ∨ c = ')' then
        match rest.dropWhile pyIsSpace with
        | [] => if rest = [] then none else some ⟨rest.drop (rest.length - 1)⟩
        | r => some ⟨r⟩
      else none
    | [] => none

/-- Semantics of `re.match(r'^[\-\*\•]\s*(.+)', line)`, returning group 1. -/
def bulletMatch (line : String) : Option String :=
  match line.data with
  | c :: rest =>
    if c = '-' ∨ c = '*' ∨ c = '•' then
      match rest.dropWhile pyIsSpace with
      | [] => if rest = [] then none else some ⟨rest.drop (rest.length - 1)⟩
      | r => some ⟨r⟩
    else none
  | [] => none

/-- Body of the first-pass `for line in lines` loop (lines 402-417): strip the
line, try the numbered pattern then the bullet pattern, appending the stripped
group when its length exceeds 20. -/
def firstPassLine (recs : List String) (rawLine : String) : List String :=
  let line := pyStrip rawLine
  if line = "" then recs
  else
    let afterNumbered :=
      match numberedMatch line with
      | some g => if 20 < (pyStrip g).length then some (recs ++ [pyStrip g]) else none
      | none => none
    match afterNumbered with
    | some r => r
    | none =>
      match bulletMatch line with
      | some b => if 20 < (pyStrip b).length then recs ++ [pyStrip b] else recs
      | none => recs

def firstPass (lines : List String) : List String := lines.foldl firstPassLine []

def action_words : List String :=
  ["develop", "implement", "establish", "create", "invest", "expand", "focus",
   "prioritize", "enhance", "strengthen"]

/-- `any(word in line.lower() for word in action_words)`. -/
def hasActionWord (line : String) : Bool :=
  action_words.any (fun w => strContains (pyLower line) w)

/-- The second-pass loop (lines 420-429): accept stripped lines of length
strictly between 25 and 300 containing an action word and not already present,
stopping once 8 items are accumulated. -/
def secondPass (recs : List String) : List String → List String
  | [] => recs
  | l :: ls =>
    let line := pyStrip l
    if 25 < line.length ∧ line.length < 300 ∧ hasActionWord line ∧ line ∉ recs then
      let recs2 := recs ++ [line]
      if 8 ≤ recs2.length then recs2 else secondPass recs2 ls
    else secondPass recs ls

/-- `_parse_recommendations(text)` (lines 393-431). -/
def parse_recommendations (text : String) : List String :=
  if text = "" then []
  else
    let lines := pySplit '\n' text
    let recs := firstPass lines
    let recs2 := if recs.length < 4 then secondPass recs lines else recs
    recs2.take 8

/-! ## Quality score: `_calculate_quality_score` (src/app.py lines 539-565) -/

/-- The `BusinessReport` dataclass (src/app.py lines 45-65) with machine reals
(`float`) modelled by `ℚ` and the two dicts by insertion-ordered association
lists. -/
structure BusinessReport where
  query : String
  targets : List String
  market_intelligence : String := ""
  competitive_landscape : String := ""
  risk_evaluation : String := ""
  strategic_actions : List String := []
  executive_briefing : String := ""
  analysis_quality : ℚ := 0
  processing_duration : ℚ := 0
  completion_status : List (String × Bool) := []
deriving Repr

/-- `sum(report.completion_status.values())`: the number of `True` entries. -/
def countTrue (l : List (String × Bool)) : Nat := (l.filter (fun p => p.2)).length

/-- The duration-based component of `_calculate_quality_score`
(lines 556-560): `if 0 < duration <= 60: +0.15 elif duration <= 120: +0.1`. -/
def duration_bonus (d : ℚ) : ℚ :=
  if 0 < d ∧ d ≤ 60 then 0.15 else if d ≤ 120 then 0.1 else 0

/-- `_calculate_quality_score(report)` (lines 539-565).  The `except` branch
returning `0.75` is reachable exactly when `completion_status` is empty, where
`sum(...) / len(...)` raises `ZeroDivisionError`; every other operation in the
`try` block is total. -/
def calculate_quality_score (report : BusinessReport) : ℚ :=
  if report.completion_status = [] then 0.75
  else
    let completeness : ℚ :=
      (countTrue report.completion_status : ℚ) / (report.completion_status.length : ℚ)
    let content_quality : ℚ :=
      (if 6 ≤ report.strategic_actions.length then 0.5 else 0) +
      (if 300 < (pyStrip report.executive_briefing).length then 0.5 else 0)
    min (completeness * 0.6 + content_quality * 0.25 +
      duration_bonus report.processing_duration) 1

example : parse_recommendations "" = [] := by decide
example : clean_input "" 50 = "" := by decide

/-! ## Analysis agents (src/app.py lines 177-391)

Each agent builds its two role-tagged messages and dispatches through the
executor.  The remote collaborator oracle and the response cache are threaded
explicitly; an agent returns its text together with the cache afterwards and
the number of collaborator invocations it consumed. -/

def section_tokens : List (String × Nat) :=
  [("market", 1000), ("competitive", 1000), ("risk", 800),
   ("recommendations", 700), ("summary", 600)]

def getToken (k : String) : Nat :=
  ((section_tokens.find? (fun p => p.1 == k)).map (fun p => p.2)).getD 0

structure AgentResult where
  text : String
  cache : Cache
  calls : Nat

def market_system_prompt : String :=
  "You are a Senior Market Research Analyst providing strategic business intelligence. \nDeliver comprehensive, structured analysis based on realistic market conditions and established business principles.\nAlways complete your analysis within the allocated response space."

/-- Static tail of the market-intelligence user prompt (after the f-string
interpolation of query and focus area). -/
def marketUserTail : String :=
  "\n\nDeliver analysis in these structured sections:\n\n## MARKET SCALE AND TRAJECTORY\nCurrent market size estimates, growth projections, and key expansion drivers\n\n## DOMINANT INDUSTRY PATTERNS  \nThree most significant trends reshaping the market and technology adoption cycles\n\n## STRATEGIC MARKET OPPORTUNITIES\nHigh-potential growth areas and emerging market segments for strategic focus\n\n## MARKET STRUCTURE ANALYSIS\nCompetitive intensity, market concentration, and barriers to market entry\n\n## FORWARD-LOOKING ASSESSMENT\n12-18 month outlook with critical success factors and performance drivers\n\nEnsure each section provides specific, actionable intelligence suitable for strategic decision-making."

/-- `market_intelligence_agent` (lines 177-215). -/
def market_intelligence_agent (oracle : Nat → GroqOutcome) (cache : Cache)
    (query : String) (targets : List String) : AgentResult :=
  let query := clean_input query 4000
  if query.length < 5 then
    ⟨"Insufficient query detail for market intelligence analysis.", cache, 0⟩
  else
    let focus_area :=
      if targets ≠ [] then "with specific attention to " ++ String.intercalate ", " (targets.take 5)
      else "across the broader market landscape"
    let user_prompt :=
      "Provide comprehensive market intelligence for: " ++ query ++ " " ++ focus_area ++ marketUserTail
    let messages : List Message := [⟨"system", market_system_prompt⟩, ⟨"user", user_prompt⟩]
    let r := execute_groq_call oracle cache messages (getToken "market") "market_intelligence"
    ⟨r.result, r.cache, r.remoteCalls⟩

def competitive_system_prompt : String :=
  "You are a Competitive Intelligence Specialist providing strategic competitive analysis.\nFocus on observable market dynamics and logical competitive assessment.\nComplete all analysis sections within the response constraints."

def competitiveUserTail : String :=
  "\n\nProvide structured competitive intelligence:\n\n## COMPETITIVE MARKET POSITIONS\nCurrent market standing, estimated share insights, and competitive hierarchy\n\n## STRATEGIC COMPETITIVE ADVANTAGES\nCore differentiators, unique value propositions, and sustainable competitive assets\n\n## COMPETITIVE VULNERABILITIES\nStrategic weaknesses, market gaps, and potential disruption points\n\n## RECENT COMPETITIVE ACTIVITIES\nNotable strategic moves, partnerships, market expansion, and product initiatives\n\n## COMPETITIVE OUTLOOK ASSESSMENT\nFuture competitive dynamics, strategic implications, and market evolution patterns\n\nBase analysis on publicly observable competitive behaviors and logical market assessment."

/-- `competitive_intelligence_agent` (lines 217-260). -/
def competitive_intelligence_agent (oracle : Nat → GroqOutcome) (cache : Cache)
    (query : String) (targets : List String) : AgentResult :=
  let query := clean_input query 4000
  if query.length < 5 then
    ⟨"Insufficient query detail for competitive intelligence analysis.", cache, 0⟩
  else
    let targets := if targets = [] then ["key market leaders"] else targets
    let competitive_entities := String.intercalate ", " (targets.take 6)
    let user_prompt :=
      "Analyze competitive dynamics for: " ++ query ++ "\n\n**TARGET ENTITIES:** " ++
        competitive_entities ++ competitiveUserTail
    let messages : List Message := [⟨"system", competitive_system_prompt⟩, ⟨"user", user_prompt⟩]
    let r := execute_groq_call oracle cache messages (getToken "competitive") "competitive_intelligence"
    ⟨r.result, r.cache, r.remoteCalls⟩

def risk_system_prompt : String :=
  "You are a Strategic Risk Analyst providing quantified risk evaluation.\nUse realistic risk scoring based on actual market conditions and business fundamentals.\nComplete all risk categories within the response allocation."

def riskUserTail : String :=
  "\n\nProvide quantified risk evaluation across these categories:\n\n## MARKET AND ECONOMIC RISK FACTORS\nRisk Level: [High/Medium/Low] (Quantified Score: X/10)\nPrimary market vulnerabilities and economic sensitivities\nMonitoring indicators and mitigation approaches\n\n## COMPETITIVE AND STRATEGIC RISKS  \nRisk Level: [High/Medium/Low] (Quantified Score: X/10)\nCompetitive threats and strategic execution risks\nDefensive strategies and competitive countermeasures\n\n## TECHNOLOGY AND INNOVATION RISKS\nRisk Level: [High/Medium/Low] (Quantified Score: X/10)  \nTechnology disruption threats and innovation challenges\nAdaptation strategies and technology investment priorities\n\n## REGULATORY AND OPERATIONAL RISKS\nRisk Level: [High/Medium/Low] (Quantified Score: X/10)\nCompliance challenges and operational vulnerabilities  \nRisk mitigation frameworks and operational safeguards\n\n## INTEGRATED RISK PROFILE\nOverall Risk Assessment Score: X/10\nTop 3 Priority Risk Areas for Strategic Attention\nComprehensive Risk Management Recommendations\n\nUse evidence-based risk evaluation with practical, implementable risk scores."

/-- `risk_assessment_agent` (lines 262-312). -/
def risk_assessment_agent (oracle : Nat → GroqOutcome) (cache : Cache)
    (query intelligence_context : String) : AgentResult :=
  let query := clean_input query 4000
  let context := clean_input intelligence_context 800
  if query.length < 5 then
    ⟨"Insufficient query detail for risk assessment.", cache, 0⟩
  else
    let user_prompt :=
      "Conduct strategic risk assessment for: " ++ query ++
        "\n\n**INTELLIGENCE CONTEXT:** " ++ strTake context 600 ++ riskUserTail
    let messages : List Message := [⟨"system", risk_system_prompt⟩, ⟨"user", user_prompt⟩]
    let r := execute_groq_call oracle cache messages (getToken "risk") "risk_assessment"
    ⟨r.result, r.cache, r.remoteCalls⟩

def rec_system_prompt : String :=
  "You are a Senior Strategic Advisor providing executive-level recommendations.\nGenerate exactly 6-8 specific, implementable strategic actions based on the intelligence provided.\nEach recommendation must be concrete and actionable."

def recUserTail : String :=
  "\n\nGenerate exactly 6-8 strategic recommendations in this precise format:\n\n1. [Specific implementable strategic action]\n2. [Specific implementable strategic action]\n3. [Specific implementable strategic action]  \n4. [Specific implementable strategic action]\n5. [Specific implementable strategic action]\n6. [Specific implementable strategic action]\n7. [Specific implementable strategic action]\n8. [Specific implementable strategic action]\n\nEach recommendation must be:\n- Directly derived from the intelligence analysis\n- Specific and actionable with clear implementation path\n- Focused on measurable business outcomes\n- Realistic and achievable within standard business constraints\n\nDo not include introductory text or explanations - provide only the numbered recommendations."

def summary_system_prompt : String :=
  "You are an Executive Business Consultant creating strategic briefings for senior leadership.\nCreate a concise, confident executive summary suitable for C-suite decision-making."

def summaryUserTail : String :=
  "\n\nGenerate executive summary with exactly 3 paragraphs:\n\n**Market Assessment Paragraph:** Current market position, key opportunities, and strategic threats\n**Strategic Direction Paragraph:** Recommended strategic approach and competitive positioning  \n**Implementation Paragraph:** Expected business impact and critical next steps\n\nUse authoritative executive language appropriate for board-level strategic discussions."

structure AdvisorResult where
  recommendations : List String
  summary : String
  cache : Cache
  calls : Nat

/-- `strategic_advisor_agent` (lines 314-391).  `complete_analysis` is the
insertion-ordered dict of the three prior section texts. -/
def strategic_advisor_agent (oracle : Nat → GroqOutcome) (cache : Cache)
    (query : String) (complete_analysis : List (String × String)) : AdvisorResult :=
  let query := clean_input query 4000
  if query.length < 5 then
    ⟨[], "Insufficient query detail for strategic advisory.", cache, 0⟩
  else
    let intelligence_brief :=
      (complete_analysis.filter
        (fun p => p.2 != "" && decide (100 < (pyStrip p.2).length))).map
        (fun p => pyUpper p.1 ++ ": " ++ clean_input p.2 400)
    let synthesis := strTake (String.intercalate " | " intelligence_brief) 1200
    let rec_user_prompt :=
      "Based on comprehensive intelligence analysis for: " ++ query ++
        "\n\n**INTELLIGENCE SYNTHESIS:** " ++ synthesis ++ recUserTail
    let messages : List Message := [⟨"system", rec_system_prompt⟩, ⟨"user", rec_user_prompt⟩]
    let r1 := execute_groq_call oracle cache messages (getToken "recommendations") "strategic_recommendations"
    let recommendations := parse_recommendations r1.result
    let summary_user_prompt :=
      "Create executive summary for strategic analysis: " ++ query ++
        "\n\n**COMPREHENSIVE INTELLIGENCE:** " ++ strTake synthesis 800 ++
        "\n**STRATEGIC INITIATIVES:** " ++ toString recommendations.length ++
        " strategic recommendations developed" ++ summaryUserTail
    let summary_messages : List Message :=
      [⟨"system", summary_system_prompt⟩, ⟨"user", summary_user_prompt⟩]
    let r2 := execute_groq_call (fun n => oracle (r1.remoteCalls + n)) r1.cache
      summary_messages (getToken "summary") "executive_summary"
    ⟨recommendations, r2.result, r2.cache, r1.remoteCalls + r2.remoteCalls⟩

/-! ## Report rendering and orchestration (src/app.py lines 433-537, 567-636) -/

/-- CPython rounding to nearest with ties to even, used by `format` for the
`.1f` / `.0%` / `.1%` conversions (applied here to the exact rational). -/
def pyRoundHalfEven (q : ℚ) : ℤ :=
  let f := ⌊q⌋
  let r := q - (f : ℚ)
  if r < 1 / 2 then f
  else if 1 / 2 < r then f + 1
  else if f % 2 = 0 then f else f + 1

/-- Python `f"{q:.1f}"` on the exact rational value. -/
def fmt1 (q : ℚ) : String :=
  let n := pyRoundHalfEven (q * 10)
  if n < 0 then "-" ++ toString ((-n).toNat / 10) ++ "." ++ toString ((-n).toNat % 10)
  else toString (n.toNat / 10) ++ "." ++ toString (n.toNat % 10)

/-- Python `f"{q:.0%}"` on the exact rational value. -/
def fmtPct0 (q : ℚ) : String := toString (pyRoundHalfEven (q * 100)) ++ "%"

/-- Python `f"{q:.1%}"` on the exact rational value. -/
def fmtPct1 (q : ℚ) : String := fmt1 (q * 100) ++ "%"

/-- `f"**{idx}.** {action}"` over `enumerate(report.strategic_actions, 1)`. -/
def numberActions (actions : List String) : List String :=
  ((List.range actions.length).zip actions).map
    (fun p => "**" ++ toString (p.1 + 1) ++ ".** " ++ p.2)

/-- `_create_business_report` (lines 567-636).  `dateStr` stands for the
`datetime.now().strftime(...)` header value.  Every operation in the `try`
block is total on the embedded domain, so the `except` branch is dead. -/
def create_business_report (dateStr : String) (report : BusinessReport) : String :=
  let header := [
    "# Strategic Business Intelligence Report",
    "**Analysis Date:** " ++ dateStr,
    "**Research Scope:** " ++ report.query,
    "**Analysis Focus:** " ++
      (if report.targets ≠ [] then String.intercalate ", " report.targets
       else "Comprehensive Market Coverage"),
    "**Processing Time:** " ++ fmt1 report.processing_duration ++
      " seconds | **Quality Score:** " ++ fmtPct0 report.analysis_quality,
    "**Section Completion:** " ++ toString (countTrue report.completion_status) ++ "/" ++
      toString report.completion_status.length ++ " sections fully delivered",
    "", "---", ""]
  let execSec :=
    if report.executive_briefing ≠ "" ∧ 100 < (pyStrip report.executive_briefing).length then
      ["## Executive Summary", report.executive_briefing, "", "---", ""]
    else []
  let recSec :=
    if report.strategic_actions ≠ [] then
      ["## Strategic Recommendations", ""] ++ numberActions report.strategic_actions ++
        ["", "---", ""]
    else []
  let bodySec := [
    "## Market Intelligence",
    (if report.market_intelligence ≠ "" then report.market_intelligence
     else "Market intelligence analysis not available due to system constraints."),
    "",
    "## Competitive Landscape",
    (if report.competitive_landscape ≠ "" then report.competitive_landscape
     else "Competitive analysis not available due to system constraints."),
    "",
    "## Strategic Risk Assessment",
    (if report.risk_evaluation ≠ "" then report.risk_evaluation
     else "Risk assessment not available due to system constraints."),
    "", "---", ""]
  let metrics := [
    "## Analysis Quality Metrics",
    "- **Content Completeness:** " ++ toString (countTrue report.completion_status) ++ "/" ++
      toString report.completion_status.length ++ " sections delivered",
    "- **Strategic Recommendations:** " ++ toString report.strategic_actions.length ++
      " actionable strategies",
    "- **Processing Efficiency:** " ++ fmt1 report.processing_duration ++ " seconds end-to-end",
    "- **Analysis Quality Score:** " ++ fmtPct1 report.analysis_quality,
    "- **Business Readiness:** " ++
      (if (0.8 : ℚ) < report.analysis_quality then "Executive-Ready"
       else if (0.6 : ℚ) < report.analysis_quality then "Business-Standard"
       else "Draft-Quality"),
    "", "*Generated by SRIP Final Production Multi-Agent Intelligence System*"]
  String.intercalate "\n" (header ++ execSec ++ recSec ++ bodySec ++ metrics)

/-- `BusinessReport.__post_init__` normalization (lines 59-65). -/
def post_init (r : BusinessReport) : BusinessReport :=
  { r with
    query := pyStrip r.query,
    targets := (r.targets.map pyStrip).filter (fun t => t ≠ "") }

/-- The validation report literal returned for short queries (lines 440-451),
with its exact leading newline and trailing indentation. -/
def input_validation_text : String :=
  "\n# Input Validation Error\n\n**Issue:** Research query must be at least 10 characters with specific business context.\n\n**Valid Query Examples:**\n- \"Strategic analysis of enterprise software market\"\n- \"Competitive intelligence for renewable energy sector\"\n- \"Market opportunity assessment for fintech solutions\"\n\nPlease provide a detailed, business-focused research question.\n                "

/-- Observable outcome of one `execute_complete_analysis` run: the returned
`(report, status)` pair plus the response cache afterwards and the total number
of remote collaborator invocations. -/
structure AnalysisOutput where
  report : String
  status : String
  cache : Cache
  remoteCalls : Nat

/-- `execute_complete_analysis(query, targets_input)` (lines 433-537).
`elapsed` stands for the measured `time.time() - analysis_start` and `dateStr`
for the report timestamp; the fixed `time.sleep(3)` pacing waits have no
observable effect.  The top-level `except` branch is unreachable in the
embedding: every modeled operation is total and the executor never raises. -/
def execute_complete_analysis (oracle : Nat → GroqOutcome) (cache : Cache)
    (dateStr : String) (elapsed : ℚ) (query : String) (targets_input : String) :
    AnalysisOutput :=
  if query = "" ∨ (pyStrip query).length < 10 then
    ⟨input_validation_text, "Input validation failed: Query insufficient", cache, 0⟩
  else
    let query1 := clean_input query 4000
    let targets :=
      if targets_input ≠ "" ∧ pyStrip targets_input ≠ "" then
        let raw_targets := (pySplit ',' targets_input).map pyStrip
        let t1 := ((raw_targets.take 8).filter (fun t => pyStrip t != "")).map
          (fun t => clean_input t 100)
        t1.filter (fun t => decide (2 < t.length))
      else []
    let report0 := post_init { query := query1, targets := targets }
    let m := market_intelligence_agent oracle cache query1 targets
    let c := competitive_intelligence_agent (fun n => oracle (m.calls + n)) m.cache query1 targets
    let analysis_context := strTake m.text 500 ++ " " ++ strTake c.text 500
    let rk := risk_assessment_agent (fun n => oracle (m.calls + c.calls + n)) c.cache
      query1 analysis_context
    let complete_intelligence :=
      [("market_intelligence", m.text), ("competitive_landscape", c.text),
       ("risk_evaluation", rk.text)]
    let adv := strategic_advisor_agent (fun n => oracle (m.calls + c.calls + rk.calls + n))
      rk.cache query1 complete_intelligence
    let completion_status := [
      ("market", decide (300 < (pyStrip m.text).length)),
      ("competitive", decide (300 < (pyStrip c.text).length)),
      ("risk", decide (200 < (pyStrip rk.text).length)),
      ("recommendations", decide (4 ≤ adv.recommendations.length)),
      ("executive", decide (200 < (pyStrip adv.summary).length))]
    let report1 : BusinessReport := { report0 with
      market_intelligence := m.text,
      competitive_landscape := c.text,
      risk_evaluation := rk.text,
      strategic_actions := adv.recommendations,
      executive_briefing := adv.summary,
      completion_status := completion_status,
      processing_duration := elapsed }
    let report2 := { report1 with analysis_quality := calculate_quality_score report1 }
    let formatted_report := create_business_report dateStr report2
    let status_message :=
      "Complete analysis delivered in " ++ fmt1 report2.processing_duration ++
        "s | Quality Score: " ++ fmtPct0 report2.analysis_quality ++
        " | Sections Completed: " ++ toString (countTrue report2.completion_status) ++ "/" ++
        toString report2.completion_status.length
    ⟨formatted_report, status_message, adv.cache, m.calls + c.calls + rk.calls + adv.calls⟩

/-! ## Helper lemmas -/

lemma mem_dropWhile {α : Type} (p : α → Bool) :
    ∀ (l : List α) (a : α), a ∈ l.dropWhile p → a ∈ l := by
  intro l
  induction l with
  | nil => simp
  | cons x xs ih =>
    intro a ha
    rw [List.dropWhile_cons] at ha
    by_cases hp : p x = true
    · simp only [hp, if_true] at ha
      exact List.mem_cons_of_mem x (ih a ha)
    · simp only [hp, if_false] at ha
      exact ha

lemma mem_pyStrip (s : String) (c : Char) (h : c ∈ (pyStrip s).data) : c ∈ s.data := by
  unfold pyStrip at h
  simp only [List.mem_reverse] at h
  have h2 := mem_dropWhile pyIsSpace _ _ h
  rw [List.mem_reverse] at h2
  exact mem_dropWhile pyIsSpace _ _ h2

lemma strLength (l : List Char) : (String.mk l).length = l.length := rfl

lemma quality_aux (c q b : ℚ) (hc : 0 ≤ c) (hq : 0 ≤ q) (hb : 0 ≤ b) :
    0 ≤ min (c * 0.6 + q * 0.25 + b) 1 ∧ min (c * 0.6 + q * 0.25 + b) 1 ≤ 1 := by
  constructor
  · refine le_min ?_ (by norm_num)
    have h1 := mul_nonneg hc (by norm_num : (0:ℚ) ≤ 0.6)
    have h2 := mul_nonneg hq (by norm_num : (0:ℚ) ≤ 0.25)
    linarith
  · exact min_le_right _ _

/-! ## Claim theorems -/

/-- C10: for every input and every maximum length `n`, `_clean_input` returns
a string of length at most `n` whose characters all lie in the allow-listed
set; the empty string and any non-string input yield the empty string. -/
theorem clean_input_spec (s : String) (n : Nat) :
    (clean_input s n).length ≤ n ∧
    (∀ c ∈ (clean_input s n).data, allowedChar c = true) ∧
    clean_input "" n = "" ∧ clean_input_val none n = "" := by
  refine ⟨?_, ?_, rfl, rfl⟩
  · unfold clean_input
    split
    · simp [String.length]
    · unfold strTake
      rw [strLength, List.length_take]
      exact min_le_left _ _
  · intro c hc
    unfold clean_input at hc
    split at hc
    · simp at hc
    · unfold strTake at hc
      have h1 : c ∈ (pyStrip ⟨s.data.filter allowedChar⟩).data := List.take_subset _ _ hc
      have h2 := mem_pyStrip _ _ h1
      exact (List.mem_filter.mp h2).2

/-- Witness for C10 at a concrete input. -/
theorem clean_input_spec_witness :
    (clean_input "ab#€ x" 3).length ≤ 3 ∧ allowedChar 'a' = true :=
  ⟨(clean_input_spec "ab#€ x" 3).1,
   (clean_input_spec "ab#€ x" 3).2.1 'a' (by decide)⟩

/-- C7: `_calculate_quality_score` always lies in `[0, 1]`, for every
combination of completion statuses, action count, briefing length and
processing duration, including the empty-status case where the internal
`ZeroDivisionError` falls back to the default `0.75`. -/
theorem calculate_quality_score_bounds (r : BusinessReport) :
    0 ≤ calculate_quality_score r ∧ calculate_quality_score r ≤ 1 := by
  unfold calculate_quality_score
  by_cases h : r.completion_status = []
  · rw [if_pos h]; norm_num
  · rw [if_neg h]
    exact quality_aux _ _ _ (by positivity) (by split_ifs <;> norm_num)
      (by unfold duration_bonus; split_ifs <;> norm_num)

/-- C8 counterexample: a processing duration of `0` is `≤ 60` seconds, yet the
duration component gives the partial credit `0.1`, not the full credit `0.15`
claimed for every duration `≤ 60` (the code requires `0 < duration`). -/
theorem duration_bonus_cex :
    (0:ℚ) ≤ 60 ∧ duration_bonus 0 = 1/10 ∧ duration_bonus 0 ≠ 15/100 := by
  refine ⟨by norm_num, ?_, ?_⟩ <;> norm_num [duration_bonus]

/-- C8 amended: full credit (`0.15`) exactly for durations in `(0, 60]`,
partial credit (`0.1`) for all other durations `≤ 120` (including `0`), and no
credit beyond `120`. -/
theorem duration_bonus_spec (d : ℚ) :
    (0 < d → d ≤ 60 → duration_bonus d = 15/100) ∧
    (d ≤ 120 → ¬(0 < d ∧ d ≤ 60) → duration_bonus d = 1/10) ∧
    (120 < d → duration_bonus d = 0) := by
  unfold duration_bonus
  refine ⟨?_, ?_, ?_⟩
  · intro hp hle
    rw [if_pos ⟨hp, hle⟩]; norm_num
  · intro hle hnot
    rw [if_neg hnot, if_pos hle]; norm_num
  · intro hgt
    rw [if_neg, if_neg]
    · linarith
    · rintro ⟨hp, hle⟩; linarith

/-- Witness for C8 amended at concrete durations 30, 0 and 150. -/
theorem duration_bonus_spec_witness :
    duration_bonus 30 = 15/100 ∧ duration_bonus 0 = 1/10 ∧ duration_bonus 150 = 0 :=
  ⟨(duration_bonus_spec 30).1 (by norm_num) (by norm_num),
   (duration_bonus_spec 0).2.1 (by norm_num) (by norm_num),
   (duration_bonus_spec 150).2.2 (by norm_num)⟩

/-- The two-line input from the claim C3. -/
def twoLineInput : String :=
  "1. Develop a new channel strategy for enterprise clients\n2. Expand into APAC markets"

/-- C3 counterexample: on the two-line input the parser does **not** return
exactly the two marker-stripped texts — the first pass finds 2 items, which is
fewer than 4, so the second pass re-adds both raw lines (each is 25-300
characters long and contains an action verb), giving 4 items. -/
theorem parse_recommendations_cex :
    parse_recommendations twoLineInput ≠
      ["Develop a new channel strategy for enterprise clients",
       "Expand into APAC markets"] := by decide

/-- C3 amended: the two-line input yields exactly 4 items — the two texts
after the numeric markers followed by the two raw lines re-accepted by the
second pass; the empty string yields `[]`; and every result has at most 8
entries. -/
theorem parse_recommendations_spec :
    parse_recommendations twoLineInput =
      ["Develop a new channel strategy for enterprise clients",
       "Expand into APAC markets",
       "1. Develop a new channel strategy for enterprise clients",
       "2. Expand into APAC markets"] ∧
    parse_recommendations "" = [] ∧
    ∀ text : String, (parse_recommendations text).length ≤ 8 := by
  refine ⟨by decide, by decide, ?_⟩
  intro text
  unfold parse_recommendations
  split
  · simp
  · rw [List.length_take]
    exact min_le_left _ _

/-- C5 (code bug): at the failing input the caller-visible message list after
`_execute_groq_call` is **not** the original — `messages.copy()` is a shallow
copy, so line 115 appends the accuracy clause to the caller's first message
dict in place. -/
theorem enhance_mutation_visible :
    (execute_groq_call (fun _ => GroqOutcome.rateLimit) []
        [⟨"system", "You are an analyst."⟩] 100 "market").messagesAfter ≠
      [⟨"system", "You are an analyst."⟩] ∧
    (execute_groq_call (fun _ => GroqOutcome.rateLimit) []
        [⟨"system", "You are an analyst."⟩] 100 "market").messagesAfter =
      [⟨"system", "You are an analyst." ++ enhancementClause⟩] := by
  constructor
  · decide
  · decide

/-- C6: every query whose trimmed length is below 10 is rejected with the
validation report and the status `"Input validation failed: Query
insufficient"` (which contains `"failed"` and `"insufficient"`), with no
remote call made and the response cache unchanged. -/
theorem analysis_validation_rejects
    (oracle : Nat → GroqOutcome) (cache : Cache) (dateStr : String) (elapsed : ℚ)
    (query targets_input : String) (h : (pyStrip query).length < 10) :
    execute_complete_analysis oracle cache dateStr elapsed query targets_input =
      ⟨input_validation_text, "Input validation failed: Query insufficient", cache, 0⟩ ∧
    occursIn "failed".data "Input validation failed: Query insufficient".data = true ∧
    occursIn "insufficient".data "Input validation failed: Query insufficient".data = true := by
  refine ⟨?_, by decide, by decide⟩
  unfold execute_complete_analysis
  rw [if_pos (Or.inr h)]

/-- Witness for C6 at the query `"ab"` from the spec. -/
theorem analysis_validation_rejects_witness :
    (pyStrip "ab").length < 10 ∧
    execute_complete_analysis (fun _ => GroqOutcome.rateLimit) [] "date" 1 "ab" "" =
      ⟨input_validation_text, "Input validation failed: Query insufficient", [], 0⟩ :=
  ⟨by decide,
   (analysis_validation_rejects (fun _ => GroqOutcome.rateLimit) [] "date" 1 "ab" ""
      (by decide)).1⟩

/-! ## Executor lemmas -/

lemma execute_hit (oracle : Nat → GroqOutcome) (cache : Cache) (messages : List Message)
    (tok : Nat) (ctx : String) (v : String) (hne : messages ≠ [])
    (h : cacheLookup cache (generate_cache_id (jsonDumpsMessages messages)) = some v) :
    execute_groq_call oracle cache messages tok ctx = ⟨v, cache, messages, 0⟩ := by
  unfold execute_groq_call
  rw [if_neg hne]
  simp only [h]

lemma execute_miss (oracle : Nat → GroqOutcome) (cache : Cache) (messages : List Message)
    (tok : Nat) (ctx : String) (hne : messages ≠ [])
    (hmiss : cacheLookup cache (generate_cache_id (jsonDumpsMessages messages)) = none) :
    execute_groq_call oracle cache messages tok ctx =
      (match modelLoop oracle 0 all_models with
      | (TryOutcome.accepted content, n) =>
        ⟨content, (generate_cache_id (jsonDumpsMessages messages), content) :: cache,
         enhanceMessages messages, n⟩
      | (TryOutcome.exhausted, n) => ⟨fallbackText ctx, cache, enhanceMessages messages, n⟩
      | (TryOutcome.unavailable, n) => ⟨fallbackText ctx, cache, enhanceMessages messages, n⟩) := by
  unfold execute_groq_call
  rw [if_neg hne]
  simp only [hmiss]
  rcases modelLoop oracle 0 all_models with ⟨t, n⟩
  cases t <;> rfl

lemma runAttempts_accepted (oracle : Nat → GroqOutcome) :
    ∀ (k idx : Nat) (c : String) (i : Nat),
      runAttempts oracle idx k = (TryOutcome.accepted c, i) → 150 < c.length := by
  intro k
  induction k with
  | zero =>
    intro idx c i h
    simp [runAttempts] at h
  | succ n ih =>
    intro idx c i h
    rw [runAttempts] at h
    rcases ho : oracle idx with choices | _ | msg | _ <;> rw [ho] at h
    · rcases choices with _ | ⟨oc, tl⟩
      · exact ih _ _ _ h
      · rcases oc with _ | c2
        · exact ih _ _ _ h
        · by_cases h1 : c2 = ""
          · simp only [h1, ne_eq, not_true_eq_false, if_false] at h
            exact ih _ _ _ h
          · simp only [ne_eq, h1, not_false_eq_true, if_true] at h
            by_cases h2 : 150 < (pyStrip c2).length
            · rw [if_pos h2] at h
              injection h with h3 h4
              injection h3 with h5
              subst h5
              exact h2
            · rw [if_neg h2] at h
              exact ih _ _ _ h
    · exact ih _ _ _ h
    · dsimp only at h
      by_cases hd : (strContains (pyLower msg) "decommissioned" ||
        strContains (pyLower msg) "not found") = true
      · rw [if_pos hd] at h
        cases h
      · rw [if_neg hd] at h
        exact ih _ _ _ h
    · exact ih _ _ _ h

lemma modelLoop_accepted (oracle : Nat → GroqOutcome) :
    ∀ (ms : List String) (idx : Nat) (c : String) (i : Nat),
      modelLoop oracle idx ms = (TryOutcome.accepted c, i) → 150 < c.length := by
  intro ms
  induction ms with
  | nil =>
    intro idx c i h
    simp [modelLoop] at h
  | cons m rest ih =>
    intro idx c i h
    rw [modelLoop] at h
    rcases ha : runAttempts oracle idx 3 with ⟨t, j⟩
    rw [ha] at h
    cases t with
    | accepted c2 =>
      injection h with h1 h2
      injection h1 with h3
      subst h3
      exact runAttempts_accepted oracle 3 idx _ _ ha
    | exhausted => exact ih _ _ _ h
    | unavailable => exact ih _ _ _ h

lemma runAttempts_rl (oracle : Nat → GroqOutcome)
    (hrl : ∀ n, oracle n = GroqOutcome.rateLimit) :
    ∀ (k idx : Nat), runAttempts oracle idx k = (TryOutcome.exhausted, idx + k) := by
  intro k
  induction k with
  | zero => intro idx; simp [runAttempts]
  | succ n ih =>
    intro idx
    rw [runAttempts, hrl idx]
    dsimp only
    rw [ih (idx + 1)]
    have : idx + 1 + n = idx + (n + 1) := by omega
    rw [this]

lemma modelLoop_rl (oracle : Nat → GroqOutcome)
    (hrl : ∀ n, oracle n = GroqOutcome.rateLimit) :
    ∀ (ms : List String) (idx : Nat),
      modelLoop oracle idx ms = (TryOutcome.exhausted, idx + 3 * ms.length) := by
  intro ms
  induction ms with
  | nil => intro idx; simp [modelLoop]
  | cons m rest ih =>
    intro idx
    rw [modelLoop, runAttempts_rl oracle hrl 3 idx]
    dsimp only
    rw [ih (idx + 3)]
    have : idx + 3 + 3 * rest.length = idx + 3 * (rest.length + 1) := by ring
    rw [this]
    rfl

/-- C2: under a collaborator that raises a rate-limit failure on every
attempt, a dispatching call (non-empty messages, cache miss) returns exactly
the deterministic structured fallback naming the context label, makes exactly
3 attempts for each of the configured models (`3 * all_models.length = 9`
invocations), and leaves the cache unchanged; the executor is a total
function, so it never raises. -/
theorem executor_rate_limit_exhaustion
    (oracle : Nat → GroqOutcome) (cache : Cache) (messages : List Message)
    (tok : Nat) (ctx : String)
    (hrl : ∀ n, oracle n = GroqOutcome.rateLimit) (hne : messages ≠ [])
    (hmiss : cacheLookup cache (generate_cache_id (jsonDumpsMessages messages)) = none) :
    execute_groq_call oracle cache messages tok ctx =
      ⟨fallbackText ctx, cache, enhanceMessages messages, 3 * all_models.length⟩ ∧
    3 * all_models.length = 9 := by
  refine ⟨?_, rfl⟩
  rw [execute_miss oracle cache messages tok ctx hne hmiss,
    modelLoop_rl oracle hrl all_models 0]
  dsimp only
  rw [Nat.zero_add]

/-- Witness for C2 at a concrete message list and empty cache. -/
theorem executor_rate_limit_exhaustion_witness :
    execute_groq_call (fun _ => GroqOutcome.rateLimit) [] [⟨"system", "s"⟩] 5 "market" =
      ⟨fallbackText "market", [], enhanceMessages [⟨"system", "s"⟩], 3 * all_models.length⟩ :=
  (executor_rate_limit_exhaustion (fun _ => GroqOutcome.rateLimit) [] [⟨"system", "s"⟩]
    5 "market" (fun _ => rfl) (by decide) rfl).1

/-- C9: the executor preserves the cache invariant that every stored value
has length greater than 150, and its cache is either untouched or extended
with exactly the accepted returned content (of length `> 150`) — in
particular, the exhaustion fallback is never stored. -/
theorem executor_cache_integrity
    (oracle : Nat → GroqOutcome) (cache : Cache) (messages : List Message)
    (tok : Nat) (ctx : String)
    (hinv : ∀ p ∈ cache, 150 < p.2.length) :
    (∀ p ∈ (execute_groq_call oracle cache messages tok ctx).cache, 150 < p.2.length) ∧
    ((execute_groq_call oracle cache messages tok ctx).cache = cache ∨
      ((execute_groq_call oracle cache messages tok ctx).cache =
        (generate_cache_id (jsonDumpsMessages messages),
         (execute_groq_call oracle cache messages tok ctx).result) :: cache ∧
       150 < (execute_groq_call oracle cache messages tok ctx).result.length)) := by
  by_cases hne : messages = []
  · subst hne
    have he : execute_groq_call oracle cache ([] : List Message) tok ctx =
        ⟨noInputText ctx, cache, [], 0⟩ := rfl
    rw [he]
    exact ⟨hinv, Or.inl rfl⟩
  · rcases hhit : cacheLookup cache (generate_cache_id (jsonDumpsMessages messages)) with _ | v
    · rw [execute_miss oracle cache messages tok ctx hne hhit]
      rcases hml : modelLoop oracle 0 all_models with ⟨t, n⟩
      cases t with
      | accepted c =>
        dsimp only
        have hc := modelLoop_accepted oracle all_models 0 c n hml
        constructor
        · intro p hp
          rcases List.mem_cons.mp hp with h | h
          · subst h; exact hc
          · exact hinv p h
        · exact Or.inr ⟨rfl, hc⟩
      | exhausted => exact ⟨hinv, Or.inl rfl⟩
      | unavailable => exact ⟨hinv, Or.inl rfl⟩
    · rw [execute_hit oracle cache messages tok ctx v hne hhit]
      exact ⟨hinv, Or.inl rfl⟩

/-- Witness for C9 starting from the empty cache. -/
theorem executor_cache_integrity_witness :
    (execute_groq_call (fun _ => GroqOutcome.rateLimit) [] [⟨"system", "r"⟩] 5 "risk").cache
        = [] ∨
    ((execute_groq_call (fun _ => GroqOutcome.rateLimit) [] [⟨"system", "r"⟩] 5 "risk").cache =
      (generate_cache_id (jsonDumpsMessages [⟨"system", "r"⟩]),
       (execute_groq_call (fun _ => GroqOutcome.rateLimit) [] [⟨"system", "r"⟩] 5 "risk").result)
        :: [] ∧
     150 < (execute_groq_call (fun _ => GroqOutcome.rateLimit) [] [⟨"system", "r"⟩] 5
        "risk").result.length) :=
  (executor_cache_integrity (fun _ => GroqOutcome.rateLimit) [] [⟨"system", "r"⟩] 5 "risk"
    (by simp)).2

/-- C4: the fingerprint is a function of the serialized message content (equal
serializations give equal cache keys), and a cache hit short-circuits remote
dispatch: when a first call stored its accepted response (its cache changed),
a second call with identically-serialized non-empty messages returns that
stored response with zero collaborator invocations and an unchanged cache. -/
theorem executor_cache_hit_short_circuit
    (oracle oracle2 : Nat → GroqOutcome) (cache : Cache)
    (messages messages2 : List Message) (tok tok2 : Nat) (ctx ctx2 : String)
    (hne : messages ≠ []) (hne2 : messages2 ≠ [])
    (hser : jsonDumpsMessages messages2 = jsonDumpsMessages messages)
    (hstore : (execute_groq_call oracle cache messages tok ctx).cache ≠ cache) :
    (∀ m1 m2 : List Message, jsonDumpsMessages m1 = jsonDumpsMessages m2 →
      generate_cache_id (jsonDumpsMessages m1) = generate_cache_id (jsonDumpsMessages m2)) ∧
    execute_groq_call oracle2 (execute_groq_call oracle cache messages tok ctx).cache
        messages2 tok2 ctx2 =
      ⟨(execute_groq_call oracle cache messages tok ctx).result,
       (execute_groq_call oracle cache messages tok ctx).cache, messages2, 0⟩ := by
  refine ⟨fun m1 m2 h => by rw [h], ?_⟩
  rcases hhit : cacheLookup cache (generate_cache_id (jsonDumpsMessages messages)) with _ | v
  · rw [execute_miss oracle cache messages tok ctx hne hhit] at hstore ⊢
    rcases hml : modelLoop oracle 0 all_models with ⟨t, n⟩
    simp only [hml] at hstore ⊢
    cases t with
    | accepted c =>
      dsimp only at hstore ⊢
      apply execute_hit
      · exact hne2
      · rw [hser]
        unfold cacheLookup
        simp
    | exhausted => exact absurd rfl hstore
    | unavailable => exact absurd rfl hstore
  · rw [execute_hit oracle cache messages tok ctx v hne hhit] at hstore
    exact absurd rfl hstore

/-- Accepted-quality content used by the C4 witness (160 characters). -/
def okContent : String := ⟨List.replicate 160 'y'⟩

set_option maxRecDepth 16000 in
/-- Witness for C4: a first call stores the accepted 160-character response;
the repeated call returns it with zero collaborator invocations. -/
theorem executor_cache_hit_short_circuit_witness :
    execute_groq_call (fun _ => GroqOutcome.failure)
        (execute_groq_call (fun _ => GroqOutcome.success [some okContent]) []
          [⟨"system", "q"⟩] 5 "m").cache [⟨"system", "q"⟩] 7 "m2" =
      ⟨(execute_groq_call (fun _ => GroqOutcome.success [some okContent]) []
          [⟨"system", "q"⟩] 5 "m").result,
       (execute_groq_call (fun _ => GroqOutcome.success [some okContent]) []
          [⟨"system", "q"⟩] 5 "m").cache,
       [⟨"system", "q"⟩], 0⟩ :=
  (executor_cache_hit_short_circuit (fun _ => GroqOutcome.success [some okContent])
    (fun _ => GroqOutcome.failure) [] [⟨"system", "q"⟩] [⟨"system", "q"⟩] 5 7 "m" "m2"
    (by decide) (by decide) rfl (by decide)).2

/-- Comparator for C1, following the spec's words: the fingerprint of the
**enhanced** message list ("implementers must fingerprint the enhanced message
list, not the original"), to be compared with the key the code computes. -/
def enhanced_fingerprint (messages : List Message) : String :=
  generate_cache_id (jsonDumpsMessages (enhanceMessages messages))

/-- Accepted-quality content used by the C1 counterexample (160 characters). -/
def longContent : String := ⟨List.replicate 160 'x'⟩

set_option maxRecDepth 16000 in
/-- C1 counterexample: at a concrete non-empty input with an accepted
response, the key under which the response is stored is the fingerprint of the
**original** serialized messages (computed at line 107, before the line-115
enhancement), and that key differs from the fingerprint of the enhanced
messages — so the claim "the cache key equals the fingerprint of the enhanced
messages" fails. -/
theorem cache_key_cex :
    (execute_groq_call (fun _ => GroqOutcome.success [some longContent]) []
        [⟨"system", "a"⟩] 5 "market").cache =
      [(generate_cache_id (jsonDumpsMessages [⟨"system", "a"⟩]), pyStrip longContent)] ∧
    generate_cache_id (jsonDumpsMessages [⟨"system", "a"⟩]) ≠
      enhanced_fingerprint [⟨"system", "a"⟩] := by
  constructor
  · decide
  · decide

/-- C1 amended: for every non-empty messages input, the executor stores and
looks up under the fingerprint of the **original** (pre-enhancement) message
list: any store extends the cache at exactly that key with the returned
result, and a hit at that key is returned unchanged. -/
theorem cache_key_spec
    (oracle : Nat → GroqOutcome) (cache : Cache) (messages : List Message)
    (tok : Nat) (ctx : String) (hne : messages ≠ []) :
    ((execute_groq_call oracle cache messages tok ctx).cache = cache ∨
      (execute_groq_call oracle cache messages tok ctx).cache =
        (generate_cache_id (jsonDumpsMessages messages),
         (execute_groq_call oracle cache messages tok ctx).result) :: cache) ∧
    (∀ v, cacheLookup cache (generate_cache_id (jsonDumpsMessages messages)) = some v →
      execute_groq_call oracle cache messages tok ctx = ⟨v, cache, messages, 0⟩) := by
  constructor
  · rcases hhit : cacheLookup cache (generate_cache_id (jsonDumpsMessages messages)) with _ | v
    · rw [execute_miss oracle cache messages tok ctx hne hhit]
      rcases hml : modelLoop oracle 0 all_models with ⟨t, n⟩
      cases t with
      | accepted c => exact Or.inr rfl
      | exhausted => exact Or.inl rfl
      | unavailable => exact Or.inl rfl
    · rw [execute_hit oracle cache messages tok ctx v hne hhit]
      exact Or.inl rfl
  · intro v hv
    exact execute_hit oracle cache messages tok ctx v hne hv

/-- Witness for C1 amended at a concrete input. -/
theorem cache_key_spec_witness :
    (execute_groq_call (fun _ => GroqOutcome.rateLimit) [] [⟨"system", "b"⟩] 5 "risk").cache
        = [] ∨
    (execute_groq_call (fun _ => GroqOutcome.rateLimit) [] [⟨"system", "b"⟩] 5 "risk").cache =
      (generate_cache_id (jsonDumpsMessages [⟨"system", "b"⟩]),
       (execute_groq_call (fun _ => GroqOutcome.rateLimit) [] [⟨"system", "b"⟩] 5
          "risk").result) :: [] :=
  (cache_key_spec (fun _ => GroqOutcome.rateLimit) [] [⟨"system", "b"⟩] 5 "risk" (by decide)).1
